import Mathlib

/-!
Shallow embedding of the authenticated-request pipeline of the
footbook-mobile repository.

Sources embedded:
- `src/services/api.ts`: the axios instance with its request interceptor
  (bearer-token attachment, lines 14-29) and response interceptor
  (401-triggered one-shot refresh, lines 32-70).
- `src/services/auth.ts`: `authService.login` (multipart form post to
  `/auth/login`).
- `src/README-AUTH.md` (which contains the source of
  `contexts/AuthContext.tsx`): `AuthProvider.login` and
  `AuthProvider.logout` (lines 227-252 of the file).

Modelling choices:
- The secure credential store (`expo-secure-store`) is a record of two
  optional strings, keyed exactly like the code keys `accessToken` and
  `refreshToken`.
- Each asynchronous effect whose outcome the code branches on is supplied
  by an environment `Env`: the HTTP server's answer to a (fully prepared)
  request, the refresh endpoint's answer, and whether each store
  read/write throws.  `SecureStore.deleteItemAsync` is modelled as always
  succeeding.
- A JavaScript `throw` / promise rejection is an `Except.error`.
- The pipeline also returns a trace: the list of requests actually handed
  to the server (in order) and the list of calls made to the refresh
  endpoint, so that counting sends/refreshes is a statement about the
  model, not about its syntax.
- The recursion `return api(originalRequest)` (api.ts line 57) re-enters
  the whole pipeline; since the only recursive call carries the `_retry`
  flag set, the recursion depth is at most 2, so executable fuel 2 is
  exact (lemma `pipelineAux_fuel_ge_two`).
-/

namespace Footbook

/-- Opaque bearer token string. -/
abbrev Token := String

/-- The credential store: the two `expo-secure-store` slots used by the
code, keys `accessToken` and `refreshToken` (spec §6). -/
structure Store where
  accessToken : Option Token
  refreshToken : Option Token
deriving Repr, DecidableEq

/-- An axios request config: its url, its `Authorization` header content
(`some t` stands for `Bearer t`, `none` for no Authorization header), and
the mutable `_retry` marker of api.ts line 38/39. -/
structure Request where
  url : String
  auth : Option Token
  retry : Bool
deriving Repr, DecidableEq

/-- A successful HTTP response (axios resolves). -/
structure Resp where
  status : Nat
  data : String
deriving Repr, DecidableEq

/-- An axios error (promise rejection): `status` is
`error.response?.status` (`none` when there is no response, e.g. a network
failure) and `msg` identifies the error value. -/
structure ApiError where
  status : Option Nat
  msg : String
deriving Repr, DecidableEq

/-- Result of one HTTP call: resolve or reject. -/
abbrev HttpResult := Except ApiError Resp

instance {ε α : Type} [DecidableEq ε] [DecidableEq α] :
    DecidableEq (Except ε α) := fun a b =>
  match a, b with
  | .ok x, .ok y =>
    if h : x = y then .isTrue (by rw [h]) else
      .isFalse (fun hc => by cases hc; exact h rfl)
  | .error x, .error y =>
    if h : x = y then .isTrue (by rw [h]) else
      .isFalse (fun hc => by cases hc; exact h rfl)
  | .ok _, .error _ => .isFalse (fun hc => by cases hc)
  | .error _, .ok _ => .isFalse (fun hc => by cases hc)

/-- The `{accessToken, refreshToken}` pair issued by the auth endpoint
(interface `AuthResponse` in src/services/auth.ts). -/
structure TokenPair where
  accessToken : Token
  refreshToken : Token
deriving Repr, DecidableEq

/-- An axios response wrapper: the code reads `response.data`. -/
structure AxiosResponse (α : Type) where
  data : α
deriving Repr, DecidableEq

/-- The JSON body `{ refreshToken }` posted to the refresh endpoint
(api.ts lines 45-47). -/
structure RefreshBody where
  refreshToken : Token
deriving Repr, DecidableEq

/-- A call to the refresh endpoint: absolute url and JSON body. -/
structure RefreshCall where
  url : String
  body : RefreshBody
deriving Repr, DecidableEq

/-- api.ts line 4. -/
def API_BASE_URL : String := "http://localhost:5000/api/v1"

/-- The absolute url used by api.ts line 45:
`axios.post(API_BASE_URL + "/auth/refresh", ...)`. -/
def refreshUrl : String := API_BASE_URL ++ "/auth/refresh"

/-- The environment resolving every asynchronous effect of one pipeline
run: the server's deterministic answer to each prepared request, the
refresh endpoint's answer to each refresh call, and whether each
`SecureStore` read/write throws (`deleteItemAsync` is modelled as
succeeding). -/
structure Env where
  server : Request → HttpResult
  refreshPost : RefreshCall → Except ApiError (AxiosResponse TokenPair)
  getAccessFails : Bool
  getRefreshFails : Bool
  setAccessFails : Bool
  setRefreshFails : Bool

/-- Observable trace of one pipeline run: the requests handed to the
server, in order, and the refresh-endpoint calls made. -/
structure Trace where
  sent : List Request
  refreshed : List RefreshCall
deriving Repr, DecidableEq

/-- Final state of one pipeline run: store contents, the value the
caller's promise settles with, and the trace. -/
structure Outcome where
  store : Store
  result : HttpResult
  trace : Trace
deriving Repr, DecidableEq

/-- The request interceptor, api.ts lines 14-29: read `accessToken` from
the store; when present, set `config.headers.Authorization = Bearer token`;
when absent, leave the config untouched; a throwing read is swallowed by
the `catch` (line 21-23) and the config is returned untouched. -/
def requestInterceptor (env : Env) (st : Store) (req : Request) : Request :=
  if env.getAccessFails then req
  else
    match st.accessToken with
    | some t => { req with auth := some t }
    | none => req

/-- Store after the `catch` block of api.ts lines 59-64 deleted both
slots. -/
def clearedStore : Store := ⟨none, none⟩

/-- The whole pipeline (request interceptor, send, response interceptor of
api.ts lines 32-70), with fuel bounding the re-entry
`return api(originalRequest)` of line 57.  The fuel-0 branch is
unreachable from `pipeline` (fuel 2): the only recursive call is on a
request with `retry = true`, which never recurses again
(`pipelineAux_retried`). -/
def pipelineAux : Nat → Env → Store → Request → Outcome
  | 0, _, st, _ => ⟨st, .error ⟨none, "unreachable"⟩, ⟨[], []⟩⟩
  | fuel + 1, env, st, req =>
    let req1 := requestInterceptor env st req
    match env.server req1 with
    | .ok r => ⟨st, .ok r, ⟨[req1], []⟩⟩
    | .error e =>
      if e.status = some 401 ∧ req1.retry = false then
        -- originalRequest._retry = true (line 39)
        let req2 : Request := { req1 with retry := true }
        if env.getRefreshFails then
          -- getItemAsync('refreshToken') threw: catch deletes both, then
          -- line 68 rejects the original error
          ⟨clearedStore, .error e, ⟨[req1], []⟩⟩
        else
          match st.refreshToken with
          | none =>
            -- `if (refreshToken)` is false: fall out of the try block to
            -- line 68 and reject the original error; nothing is deleted
            ⟨st, .error e, ⟨[req1], []⟩⟩
          | some rt =>
            let call : RefreshCall := ⟨refreshUrl, ⟨rt⟩⟩
            match env.refreshPost call with
            | .error _ =>
              -- refresh endpoint threw: catch deletes both, original error
              ⟨clearedStore, .error e, ⟨[req1], [call]⟩⟩
            | .ok resp =>
              let pair := resp.data
              if env.setAccessFails then
                -- setItemAsync('accessToken') threw inside the try
                ⟨clearedStore, .error e, ⟨[req1], [call]⟩⟩
              else if env.setRefreshFails then
                -- setItemAsync('refreshToken') threw inside the try
                ⟨clearedStore, .error e, ⟨[req1], [call]⟩⟩
              else
                let st2 : Store := ⟨some pair.accessToken, some pair.refreshToken⟩
                let req3 : Request := { req2 with auth := some pair.accessToken }
                let o := pipelineAux fuel env st2 req3
                ⟨o.store, o.result, ⟨req1 :: o.trace.sent, call :: o.trace.refreshed⟩⟩
      else
        ⟨st, .error e, ⟨[req1], []⟩⟩

/-- One caller-visible run of the pipeline. -/
def pipeline (env : Env) (st : Store) (req : Request) : Outcome :=
  pipelineAux 2 env st req

/-- Multipart form data: ordered key/value entries. -/
structure FormData where
  entries : List (String × String)
deriving Repr, DecidableEq

/-- `formData.append(key, value)`. -/
def FormData.append (fd : FormData) (key value : String) : FormData :=
  ⟨fd.entries ++ [(key, value)]⟩

/-- A multipart POST as issued by src/services/auth.ts: url (relative to
the api instance's base url), the Content-Type header, and the form
entries. -/
structure PostRequest where
  url : String
  contentType : String
  form : List (String × String)
deriving Repr, DecidableEq

/-- `authService.login` (src/services/auth.ts lines 24-35): build a
FormData with the email and password fields, post it to `/auth/login` with
Content-Type multipart/form-data, and return `response.data`.  `post` is
the api instance's effect. -/
def authService.login
    (post : PostRequest → Except ApiError (AxiosResponse TokenPair))
    (email password : String) : Except ApiError TokenPair :=
  let formData := ((FormData.mk []).append "email" email).append "password" password
  match post ⟨"/auth/login", "multipart/form-data", formData.entries⟩ with
  | .error e => .error e
  | .ok resp => .ok resp.data

/-- React state held by the AuthProvider (contexts/AuthContext.tsx, whose
source is included in src/README-AUTH.md). -/
structure SessionState where
  isAuthenticated : Bool
  accessToken : Option Token
  refreshToken : Option Token
deriving Repr, DecidableEq

/-- An error thrown by a SecureStore write. -/
structure StoreErr where
  msg : String
deriving Repr, DecidableEq

/-- `AuthProvider.login` (README-AUTH.md lines 227-239): write the access
token, then the refresh token, then update the React state; on any throw
the catch logs and rethrows (`throw error`), leaving whatever was already
written in place. -/
def AuthProvider.login (setAccessFails setRefreshFails : Bool)
    (st : Store) (sess : SessionState) (tokens : TokenPair) :
    Store × SessionState × Except StoreErr Unit :=
  if setAccessFails then
    (st, sess, .error ⟨"setItemAsync accessToken failed"⟩)
  else
    let st1 : Store := { st with accessToken := some tokens.accessToken }
    if setRefreshFails then
      (st1, sess, .error ⟨"setItemAsync refreshToken failed"⟩)
    else
      (⟨some tokens.accessToken, some tokens.refreshToken⟩,
       ⟨true, some tokens.accessToken, some tokens.refreshToken⟩, .ok ())

/-- `AuthProvider.logout` (README-AUTH.md lines 241-252): delete both
slots, reset the React state; delete errors are swallowed (deletes are
modelled as succeeding). -/
def AuthProvider.logout (_st : Store) (_sess : SessionState) :
    Store × SessionState × Except StoreErr Unit :=
  (clearedStore, ⟨false, none, none⟩, .ok ())

/-- The both-or-neither shape of the stored token pair (spec §3). -/
def pairConsistent (st : Store) : Prop :=
  st.accessToken.isSome = st.refreshToken.isSome

instance (st : Store) : Decidable (pairConsistent st) := by
  unfold pairConsistent; infer_instance

/-! ### Supporting lemmas -/

/-- The request interceptor never touches the `_retry` marker. -/
theorem requestInterceptor_retry (env : Env) (st : Store) (req : Request) :
    (requestInterceptor env st req).retry = req.retry := by
  unfold requestInterceptor
  split
  · rfl
  · cases st.accessToken <;> rfl

/-- A request already marked `_retry` passes straight through: the server
is consulted once and its answer — resolution or rejection — is returned
unchanged, with no refresh call and no store change. -/
theorem pipelineAux_retried (fuel : Nat) (env : Env) (st : Store)
    (req : Request) (h : req.retry = true) :
    pipelineAux (fuel + 1) env st req =
      ⟨st, env.server (requestInterceptor env st req),
       ⟨[requestInterceptor env st req], []⟩⟩ := by
  unfold pipelineAux
  cases hs : env.server (requestInterceptor env st req) with
  | ok r => simp [hs]
  | error e => simp [hs, requestInterceptor_retry, h]

/-- Fuel 2 is exact: any extra fuel computes the same outcome, because
the single re-entry `api(originalRequest)` happens on a request marked
`_retry` and therefore never recurses again. -/
theorem pipelineAux_fuel_ge_two (n : Nat) (env : Env) (st : Store)
    (req : Request) :
    pipelineAux (n + 2) env st req = pipelineAux 2 env st req := by
  show pipelineAux (n + 1 + 1) env st req = pipelineAux (1 + 1) env st req
  unfold pipelineAux
  cases hs : env.server (requestInterceptor env st req) with
  | ok r => simp [hs]
  | error e =>
    simp only [hs]
    split
    · split
      · rfl
      · split
        · rfl
        · split
          · rfl
          · split
            · rfl
            · split
              · rfl
              · rw [pipelineAux_retried n, pipelineAux_retried 0] <;> rfl
    · rfl

/-- Every run hands the interceptor-prepared request to the server
first. -/
theorem pipelineAux_sent_head (fuel : Nat) (env : Env) (st : Store)
    (req : Request) :
    (pipelineAux (fuel + 1) env st req).trace.sent.head? =
      some (requestInterceptor env st req) := by
  unfold pipelineAux
  cases hs : env.server (requestInterceptor env st req) with
  | ok r => simp [hs]
  | error e =>
    simp only [hs]
    split
    · split
      · rfl
      · split
        · rfl
        · split
          · rfl
          · split
            · rfl
            · split
              · rfl
              · rfl
    · rfl

/-- Any single run calls the refresh endpoint at most once and hands the
server at most two requests. -/
theorem pipeline_attempt_bound (env : Env) (st : Store) (req : Request) :
    (pipeline env st req).trace.refreshed.length ≤ 1 ∧
    (pipeline env st req).trace.sent.length ≤ 2 := by
  have h2 : pipeline env st req = pipelineAux (1 + 1) env st req := rfl
  rw [h2]
  unfold pipelineAux
  cases hs : env.server (requestInterceptor env st req) with
  | ok r => simp [hs]
  | error e =>
    simp only [hs]
    split
    · split
      · simp
      · split
        · simp
        · split
          · simp
          · split
            · simp
            · split
              · simp
              · rw [pipelineAux_retried 0 _ _ _ rfl]
                simp
    · simp

/-- Both-or-neither is preserved by every run of the pipeline, whatever
the environment does: every terminal store is the input store, the cleared
store, or a freshly written full pair. -/
theorem pipelineAux_pairConsistent (fuel : Nat) (env : Env) (st : Store)
    (req : Request) (h : pairConsistent st) :
    pairConsistent (pipelineAux fuel env st req).store := by
  induction fuel generalizing st req with
  | zero => simpa [pipelineAux]
  | succ n ih =>
    unfold pipelineAux
    cases hs : env.server (requestInterceptor env st req) with
    | ok r => simpa [hs]
    | error e =>
      simp only [hs]
      split
      · split
        · exact rfl
        · split
          · exact h
          · split
            · exact rfl
            · split
              · exact rfl
              · split
                · exact rfl
                · exact ih _ _ rfl
      · exact h

/-- Passthrough path (api.ts line 38 guard false): a rejection that is not
a 401, or arrives on a request already marked `_retry`, is returned as-is;
the store is untouched and no refresh call is made. -/
theorem pipeline_passthrough (env : Env) (st : Store) (req : Request)
    (e : ApiError)
    (hsend : env.server (requestInterceptor env st req) = .error e)
    (hpass : e.status ≠ some 401 ∨ req.retry = true) :
    pipeline env st req =
      ⟨st, .error e, ⟨[requestInterceptor env st req], []⟩⟩ := by
  have h2 : pipeline env st req = pipelineAux (1 + 1) env st req := rfl
  rw [h2]
  unfold pipelineAux
  simp only [hsend]
  rw [if_neg]
  intro hc
  rcases hpass with hp | hp
  · exact hp hc.1
  · rw [requestInterceptor_retry, hp] at hc
    exact Bool.noConfusion hc.2

/-- Refresh-success path (api.ts lines 41-57): 401 on a fresh request,
refresh token present, endpoint answers a new pair, both writes succeed;
the store ends holding the new pair, the original request is resent once
marked `_retry` and carrying the new access token, and the resend's
outcome — whatever it is — is the run's result. -/
theorem pipeline_refresh_success (env : Env) (st : Store) (req : Request)
    (rt : Token) (e : ApiError) (resp : AxiosResponse TokenPair)
    (hretry : req.retry = false)
    (hsend : env.server (requestInterceptor env st req) = .error e)
    (h401 : e.status = some 401)
    (hgr : env.getRefreshFails = false)
    (hrt : st.refreshToken = some rt)
    (hrefresh : env.refreshPost ⟨refreshUrl, ⟨rt⟩⟩ = .ok resp)
    (hsa : env.setAccessFails = false)
    (hsr : env.setRefreshFails = false) :
    pipeline env st req =
      ⟨⟨some resp.data.accessToken, some resp.data.refreshToken⟩,
       env.server { requestInterceptor env st req with
                    auth := some resp.data.accessToken, retry := true },
       ⟨[requestInterceptor env st req,
         { requestInterceptor env st req with
           auth := some resp.data.accessToken, retry := true }],
        [⟨refreshUrl, ⟨rt⟩⟩]⟩⟩ := by
  have h2 : pipeline env st req = pipelineAux (1 + 1) env st req := rfl
  rw [h2]
  unfold pipelineAux
  simp only [hsend, hrt, hrefresh, hsa, hsr, requestInterceptor_retry,
    hretry, h401, and_self, if_true, hgr, Bool.false_eq_true, if_false]
  rw [pipelineAux_retried 0 _ _ _ rfl]
  cases hga : env.getAccessFails with
  | true => simp [requestInterceptor, hga]
  | false => simp [requestInterceptor, hga]

/-- Refresh-failure path (api.ts lines 59-64): 401 on a fresh request,
refresh token present, but the refresh endpoint rejects or one of the two
writes throws; both slots are deleted, no resend happens, and the caller
gets the original 401 error back. -/
theorem pipeline_refresh_failure (env : Env) (st : Store) (req : Request)
    (rt : Token) (e : ApiError)
    (hretry : req.retry = false)
    (hsend : env.server (requestInterceptor env st req) = .error e)
    (h401 : e.status = some 401)
    (hgr : env.getRefreshFails = false)
    (hrt : st.refreshToken = some rt)
    (hfail : (∃ re, env.refreshPost ⟨refreshUrl, ⟨rt⟩⟩ = .error re) ∨
             env.setAccessFails = true ∨ env.setRefreshFails = true) :
    pipeline env st req =
      ⟨clearedStore, .error e,
       ⟨[requestInterceptor env st req], [⟨refreshUrl, ⟨rt⟩⟩]⟩⟩ := by
  have h2 : pipeline env st req = pipelineAux (1 + 1) env st req := rfl
  rw [h2]
  unfold pipelineAux
  simp only [hsend, hrt, requestInterceptor_retry, hretry, h401, and_self,
    if_true, hgr, Bool.false_eq_true, if_false]
  cases hpost : env.refreshPost ⟨refreshUrl, ⟨rt⟩⟩ with
  | error re => rfl
  | ok resp =>
    rcases hfail with ⟨re, hre⟩ | hf | hf
    · rw [hpost] at hre
      cases hre
    · simp [hf]
    · cases hsa : env.setAccessFails with
      | true => simp
      | false => simp [hf]

/-- Missing-refresh-token path (api.ts line 43 guard false): 401 on a
fresh request but no stored refresh token; the code falls out of the
`if (refreshToken)` block with nothing thrown, so the catch never runs:
nothing is deleted, no refresh call and no resend happen, and the
original 401 is rejected to the caller. -/
theorem pipeline_no_refresh_token (env : Env) (st : Store) (req : Request)
    (e : ApiError)
    (hretry : req.retry = false)
    (hsend : env.server (requestInterceptor env st req) = .error e)
    (h401 : e.status = some 401)
    (hgr : env.getRefreshFails = false)
    (hrt : st.refreshToken = none) :
    pipeline env st req =
      ⟨st, .error e, ⟨[requestInterceptor env st req], []⟩⟩ := by
  have h2 : pipeline env st req = pipelineAux (1 + 1) env st req := rfl
  rw [h2]
  unfold pipelineAux
  simp only [hsend, hrt, requestInterceptor_retry, hretry, h401, and_self,
    if_true, hgr, Bool.false_eq_true, if_false]

/-- Whenever the refresh branch is entered with a stored refresh token,
exactly one refresh call — to the absolute refresh url, with the JSON body
`{refreshToken: rt}` — appears in the trace, whatever the endpoint
answers. -/
theorem pipeline_refreshed_eq (env : Env) (st : Store) (req : Request)
    (rt : Token) (e : ApiError)
    (hretry : req.retry = false)
    (hsend : env.server (requestInterceptor env st req) = .error e)
    (h401 : e.status = some 401)
    (hgr : env.getRefreshFails = false)
    (hrt : st.refreshToken = some rt) :
    (pipeline env st req).trace.refreshed = [⟨refreshUrl, ⟨rt⟩⟩] := by
  cases hpost : env.refreshPost ⟨refreshUrl, ⟨rt⟩⟩ with
  | error re =>
    rw [pipeline_refresh_failure env st req rt e hretry hsend h401 hgr hrt
      (Or.inl ⟨re, hpost⟩)]
  | ok resp =>
    cases hsa : env.setAccessFails with
    | true =>
      rw [pipeline_refresh_failure env st req rt e hretry hsend h401 hgr hrt
        (Or.inr (Or.inl hsa))]
    | false =>
      cases hsr : env.setRefreshFails with
      | true =>
        rw [pipeline_refresh_failure env st req rt e hretry hsend h401 hgr hrt
          (Or.inr (Or.inr hsr))]
      | false =>
        rw [pipeline_refresh_success env st req rt e resp hretry hsend h401
          hgr hrt hpost hsa hsr]

/-! ### Concrete environments, used by witnesses and counterexamples -/

/-- Server answers 401 to a fresh request and succeeds once the request
carries the rotated access token `A2`; the refresh endpoint rotates `R1`
into `{A2, R2}`.  All store operations succeed. -/
def envOk : Env where
  server := fun r =>
    if r.retry then
      if r.auth = some "A2" then .ok ⟨200, "profile"⟩
      else .error ⟨some 401, "unauthorized resend"⟩
    else .error ⟨some 401, "unauthorized"⟩
  refreshPost := fun c =>
    if c.body.refreshToken = "R1" then .ok ⟨⟨"A2", "R2"⟩⟩
    else .error ⟨some 401, "invalid refresh token"⟩
  getAccessFails := false
  getRefreshFails := false
  setAccessFails := false
  setRefreshFails := false

/-- Server answers 401 to everything — the refresh succeeds but the
resent request is still unauthorized. -/
def envStill401 : Env where
  server := fun r =>
    if r.retry then .error ⟨some 401, "unauthorized resend"⟩
    else .error ⟨some 401, "unauthorized"⟩
  refreshPost := fun c =>
    if c.body.refreshToken = "R1" then .ok ⟨⟨"A2", "R2"⟩⟩
    else .error ⟨some 401, "invalid refresh token"⟩
  getAccessFails := false
  getRefreshFails := false
  setAccessFails := false
  setRefreshFails := false

/-- Server answers 401 to a fresh request and the refresh endpoint
rejects every refresh token. -/
def envRefreshFail : Env where
  server := fun r =>
    if r.retry then .ok ⟨200, "profile"⟩
    else .error ⟨some 401, "unauthorized"⟩
  refreshPost := fun _ => .error ⟨some 401, "invalid refresh token"⟩
  getAccessFails := false
  getRefreshFails := false
  setAccessFails := false
  setRefreshFails := false

/-- Server always rejects with a 500; refresh would succeed but is never
reached. -/
def envServerErr : Env where
  server := fun _ => .error ⟨some 500, "internal server error"⟩
  refreshPost := fun _ => .ok ⟨⟨"A2", "R2"⟩⟩
  getAccessFails := false
  getRefreshFails := false
  setAccessFails := false
  setRefreshFails := false

/-- Reading the access token throws; the server accepts everything. -/
def envGetFail : Env where
  server := fun _ => .ok ⟨200, "profile"⟩
  refreshPost := fun _ => .ok ⟨⟨"A2", "R2"⟩⟩
  getAccessFails := true
  getRefreshFails := false
  setAccessFails := false
  setRefreshFails := false

/-- A login endpoint accepting any multipart post to `/auth/login`. -/
def loginPost : PostRequest → Except ApiError (AxiosResponse TokenPair) :=
  fun pr =>
    if pr.url = "/auth/login" ∧ pr.contentType = "multipart/form-data" then
      .ok ⟨⟨"A1", "R1"⟩⟩
    else .error ⟨some 404, "not found"⟩

/-! ### Claims -/

/-- C2: for a request that receives a 401 while not yet retried, when the
store holds a refresh token and the refresh endpoint returns a new pair,
the pipeline persists both new tokens, resends the original request
exactly once carrying the new access token as the bearer header, and
returns that resend's result to the caller; with stored pair `{A1, R1}`
and the endpoint mapping `R1` to `{A2, R2}`, the store ends holding
`{A2, R2}` and the replayed request carries `Authorization: Bearer A2`. -/
theorem c2_refresh_persist_resend (env : Env) (st : Store) (req : Request)
    (A1 R1 A2 R2 : Token) (e : ApiError)
    (hst : st = ⟨some A1, some R1⟩)
    (hretry : req.retry = false)
    (hga : env.getAccessFails = false)
    (hgr : env.getRefreshFails = false)
    (hsa : env.setAccessFails = false)
    (hsr : env.setRefreshFails = false)
    (hsend : env.server { req with auth := some A1 } = .error e)
    (h401 : e.status = some 401)
    (hrefresh : env.refreshPost ⟨refreshUrl, ⟨R1⟩⟩ = .ok ⟨⟨A2, R2⟩⟩) :
    pipeline env st req =
      ⟨⟨some A2, some R2⟩,
       env.server { req with auth := some A2, retry := true },
       ⟨[{ req with auth := some A1 },
         { req with auth := some A2, retry := true }],
        [⟨refreshUrl, ⟨R1⟩⟩]⟩⟩ := by
  subst hst
  have hri : requestInterceptor env ⟨some A1, some R1⟩ req =
      { req with auth := some A1 } := by
    simp [requestInterceptor, hga]
  rw [pipeline_refresh_success env _ req R1 e ⟨⟨A2, R2⟩⟩ hretry
    (by rw [hri]; exact hsend) h401 hgr rfl hrefresh hsa hsr, hri]

/-- Witness for C2 at a concrete input: store `{A1, R1}`, a 401 on the
first send, refresh rotating to `{A2, R2}`; the store ends `{A2, R2}`,
the single resend carries `Bearer A2` and its 200 response is the run's
result. -/
theorem c2_witness :
    envOk.server ⟨"/me", some "A1", false⟩ = .error ⟨some 401, "unauthorized"⟩ ∧
    envOk.refreshPost ⟨refreshUrl, ⟨"R1"⟩⟩ = .ok ⟨⟨"A2", "R2"⟩⟩ ∧
    pipeline envOk ⟨some "A1", some "R1"⟩ ⟨"/me", none, false⟩ =
      ⟨⟨some "A2", some "R2"⟩, .ok ⟨200, "profile"⟩,
       ⟨[⟨"/me", some "A1", false⟩, ⟨"/me", some "A2", true⟩],
        [⟨refreshUrl, ⟨"R1"⟩⟩]⟩⟩ := by
  refine ⟨rfl, by decide, ?_⟩
  have h := c2_refresh_persist_resend envOk ⟨some "A1", some "R1"⟩
    ⟨"/me", none, false⟩ "A1" "R1" "A2" "R2" ⟨some 401, "unauthorized"⟩
    rfl rfl rfl rfl rfl rfl rfl rfl (by decide)
  exact h.trans (by decide)

/-- C3: for a request that receives a 401 while not yet retried, if the
refresh attempt fails — the endpoint rejects, or a store write throws
after a refresh token was found — the pipeline performs zero resends,
deletes both stored tokens, and rejects with the original 401 error, not
the refresh error. -/
theorem c3_refresh_failure_surfaces_original (env : Env) (st : Store)
    (req : Request) (rt : Token) (e : ApiError)
    (hretry : req.retry = false)
    (hsend : env.server (requestInterceptor env st req) = .error e)
    (h401 : e.status = some 401)
    (hgr : env.getRefreshFails = false)
    (hrt : st.refreshToken = some rt)
    (hfail : (∃ re, env.refreshPost ⟨refreshUrl, ⟨rt⟩⟩ = .error re) ∨
             env.setAccessFails = true ∨ env.setRefreshFails = true) :
    pipeline env st req =
      ⟨clearedStore, .error e,
       ⟨[requestInterceptor env st req], [⟨refreshUrl, ⟨rt⟩⟩]⟩⟩ :=
  pipeline_refresh_failure env st req rt e hretry hsend h401 hgr hrt hfail

/-- Witness for C3 at a concrete input: the refresh endpoint rejects; the
run ends with both slots deleted, exactly one send, and the original
`unauthorized` error. -/
theorem c3_witness :
    envRefreshFail.server ⟨"/me", some "A1", false⟩ =
      .error ⟨some 401, "unauthorized"⟩ ∧
    envRefreshFail.refreshPost ⟨refreshUrl, ⟨"R1"⟩⟩ =
      .error ⟨some 401, "invalid refresh token"⟩ ∧
    pipeline envRefreshFail ⟨some "A1", some "R1"⟩ ⟨"/me", none, false⟩ =
      ⟨clearedStore, .error ⟨some 401, "unauthorized"⟩,
       ⟨[⟨"/me", some "A1", false⟩], [⟨refreshUrl, ⟨"R1"⟩⟩]⟩⟩ := by
  refine ⟨rfl, rfl, ?_⟩
  have h := c3_refresh_failure_surfaces_original envRefreshFail
    ⟨some "A1", some "R1"⟩ ⟨"/me", none, false⟩ "R1"
    ⟨some 401, "unauthorized"⟩ rfl rfl rfl rfl rfl
    (Or.inl ⟨⟨some 401, "invalid refresh token"⟩, rfl⟩)
  exact h.trans rfl

/-- C4 counterexample: with stored access token `A1`, no stored refresh
token, and a server answering 401, the run ends with the store still
holding `A1` — the pipeline does NOT delete the stored tokens on the
missing-refresh-token path, contrary to the claim: the `if (refreshToken)`
guard of api.ts line 43 simply falls through to the final rejection
without entering the catch block that deletes. -/
theorem c4_counterexample :
    (pipeline envStill401 ⟨some "A1", none⟩ ⟨"/matches", none, false⟩).store =
      ⟨some "A1", none⟩ ∧
    (pipeline envStill401 ⟨some "A1", none⟩ ⟨"/matches", none, false⟩).store ≠
      clearedStore := by
  exact ⟨rfl, by decide⟩

/-- C4 amended: for a request that receives a 401 while not yet retried,
if the credential store holds no refresh token (and reading it does not
throw), the pipeline leaves the store unchanged — it deletes nothing —
performs no refresh call and no resend, and propagates the original 401
error to the caller. -/
theorem c4_no_refresh_token_passthrough (env : Env) (st : Store)
    (req : Request) (e : ApiError)
    (hretry : req.retry = false)
    (hsend : env.server (requestInterceptor env st req) = .error e)
    (h401 : e.status = some 401)
    (hgr : env.getRefreshFails = false)
    (hrt : st.refreshToken = none) :
    pipeline env st req =
      ⟨st, .error e, ⟨[requestInterceptor env st req], []⟩⟩ :=
  pipeline_no_refresh_token env st req e hretry hsend h401 hgr hrt

/-- Witness for the amended C4 at a concrete input. -/
theorem c4_witness :
    envStill401.server ⟨"/matches", some "A1", false⟩ =
      .error ⟨some 401, "unauthorized"⟩ ∧
    pipeline envStill401 ⟨some "A1", none⟩ ⟨"/matches", none, false⟩ =
      ⟨⟨some "A1", none⟩, .error ⟨some 401, "unauthorized"⟩,
       ⟨[⟨"/matches", some "A1", false⟩], []⟩⟩ := by
  refine ⟨rfl, ?_⟩
  have h := c4_no_refresh_token_passthrough envStill401 ⟨some "A1", none⟩
    ⟨"/matches", none, false⟩ ⟨some 401, "unauthorized"⟩ rfl rfl rfl rfl rfl
  exact h.trans rfl

/-- C6: every rejection whose status is not 401, and every 401 on a
request already marked retried, is rejected to the caller as the very
same error value: no refresh call, no resend, no replacement or wrapping
of the error. -/
theorem c6_error_passthrough_unchanged (env : Env) (st : Store)
    (req : Request) (e : ApiError)
    (hsend : env.server (requestInterceptor env st req) = .error e)
    (hpass : e.status ≠ some 401 ∨ req.retry = true) :
    (pipeline env st req).result = .error e ∧
    (pipeline env st req).trace.refreshed = [] ∧
    (pipeline env st req).trace.sent = [requestInterceptor env st req] := by
  rw [pipeline_passthrough env st req e hsend hpass]
  exact ⟨rfl, rfl, rfl⟩

/-- Witness for C6 at a concrete input: a 500 passes through unchanged
with no refresh and no resend. -/
theorem c6_witness :
    envServerErr.server ⟨"/teams", some "A1", false⟩ =
      .error ⟨some 500, "internal server error"⟩ ∧
    (pipeline envServerErr ⟨some "A1", some "R1"⟩ ⟨"/teams", none, false⟩).result =
      .error ⟨some 500, "internal server error"⟩ ∧
    (pipeline envServerErr ⟨some "A1", some "R1"⟩ ⟨"/teams", none, false⟩).trace.refreshed =
      [] ∧
    (pipeline envServerErr ⟨some "A1", some "R1"⟩ ⟨"/teams", none, false⟩).trace.sent =
      [⟨"/teams", some "A1", false⟩] := by
  have h := c6_error_passthrough_unchanged envServerErr
    ⟨some "A1", some "R1"⟩ ⟨"/teams", none, false⟩
    ⟨some 500, "internal server error"⟩ rfl (Or.inl (by decide))
  exact ⟨rfl, h.1, h.2.1, h.2.2.trans rfl⟩

/-- C10: whenever the response interceptor passes an error through
without attempting a refresh — any non-401 rejection, or a 401 on a
request already marked retried — the credential store contents are left
exactly as they were: nothing is written and nothing is deleted. -/
theorem c10_passthrough_preserves_store (env : Env) (st : Store)
    (req : Request) (e : ApiError)
    (hsend : env.server (requestInterceptor env st req) = .error e)
    (hpass : e.status ≠ some 401 ∨ req.retry = true) :
    (pipeline env st req).store = st := by
  rw [pipeline_passthrough env st req e hsend hpass]

/-- Witness for C10 at a concrete input: a 401 on an already-retried
request leaves the stored pair untouched. -/
theorem c10_witness :
    envStill401.server ⟨"/me", some "A1", true⟩ =
      .error ⟨some 401, "unauthorized resend"⟩ ∧
    (pipeline envStill401 ⟨some "A1", some "R1"⟩ ⟨"/me", some "A1", true⟩).store =
      ⟨some "A1", some "R1"⟩ := by
  refine ⟨by decide, ?_⟩
  exact c10_passthrough_preserves_store envStill401 ⟨some "A1", some "R1"⟩
    ⟨"/me", some "A1", true⟩ ⟨some 401, "unauthorized resend"⟩ (by decide)
    (Or.inr rfl)

/-- C1: at most one refresh-and-resend attempt is ever made per original
request (first two conjuncts, for every environment, store and request);
and in the scenario where a fresh request gets a 401, the refresh
succeeds, and the resent request — marked retried — itself receives a
401, the pipeline does not attempt a second refresh and returns the
resend's rejection unchanged, the store keeping the rotated pair. -/
theorem c1_single_retry_bound (env : Env) (st : Store) (req : Request)
    (rt : Token) (e e2 : ApiError) (resp : AxiosResponse TokenPair)
    (hretry : req.retry = false)
    (hsend : env.server (requestInterceptor env st req) = .error e)
    (h401 : e.status = some 401)
    (hgr : env.getRefreshFails = false)
    (hrt : st.refreshToken = some rt)
    (hrefresh : env.refreshPost ⟨refreshUrl, ⟨rt⟩⟩ = .ok resp)
    (hsa : env.setAccessFails = false)
    (hsr : env.setRefreshFails = false)
    (hresend : env.server { requestInterceptor env st req with
        auth := some resp.data.accessToken, retry := true } = .error e2)
    (_h401resend : e2.status = some 401) :
    (∀ (env' : Env) (st' : Store) (req' : Request),
      (pipeline env' st' req').trace.refreshed.length ≤ 1 ∧
      (pipeline env' st' req').trace.sent.length ≤ 2) ∧
    (pipeline env st req).result = .error e2 ∧
    (pipeline env st req).trace.refreshed = [⟨refreshUrl, ⟨rt⟩⟩] ∧
    (pipeline env st req).trace.sent =
      [requestInterceptor env st req,
       { requestInterceptor env st req with
         auth := some resp.data.accessToken, retry := true }] ∧
    (pipeline env st req).store =
      ⟨some resp.data.accessToken, some resp.data.refreshToken⟩ := by
  have hmain := pipeline_refresh_success env st req rt e resp hretry hsend
    h401 hgr hrt hrefresh hsa hsr
  refine ⟨fun env' st' req' => pipeline_attempt_bound env' st' req',
    ?_, ?_, ?_, ?_⟩
  · rw [hmain]
    exact hresend
  · rw [hmain]
  · rw [hmain]
  · rw [hmain]

/-- Witness for C1 at a concrete input: the server rejects even the
resent request with a 401; the run makes exactly one refresh call,
exactly two sends, and settles with the resend's own error value. -/
theorem c1_witness :
    envStill401.server ⟨"/me", some "A1", false⟩ =
      .error ⟨some 401, "unauthorized"⟩ ∧
    envStill401.server ⟨"/me", some "A2", true⟩ =
      .error ⟨some 401, "unauthorized resend"⟩ ∧
    (pipeline envStill401 ⟨some "A1", some "R1"⟩ ⟨"/me", none, false⟩).result =
      .error ⟨some 401, "unauthorized resend"⟩ ∧
    (pipeline envStill401 ⟨some "A1", some "R1"⟩ ⟨"/me", none, false⟩).trace.refreshed =
      [⟨refreshUrl, ⟨"R1"⟩⟩] ∧
    (pipeline envStill401 ⟨some "A1", some "R1"⟩ ⟨"/me", none, false⟩).store =
      ⟨some "A2", some "R2"⟩ := by
  have h := c1_single_retry_bound envStill401 ⟨some "A1", some "R1"⟩
    ⟨"/me", none, false⟩ "R1" ⟨some 401, "unauthorized"⟩
    ⟨some 401, "unauthorized resend"⟩ ⟨⟨"A2", "R2"⟩⟩
    rfl rfl rfl rfl rfl (by decide) rfl rfl (by decide) rfl
  exact ⟨rfl, by decide, h.2.1, h.2.2.1, h.2.2.2.2⟩

/-- C5: for every outbound request, if the store holds an access token
(and reading it does not throw) the pipeline hands the server the request
with exactly that token as `Authorization: Bearer <accessToken>`; if the
store holds no access token, a request that carried no Authorization
header is sent without one. -/
theorem c5_bearer_attachment (env : Env) (st : Store) (req : Request)
    (hga : env.getAccessFails = false) :
    (∀ t, st.accessToken = some t →
      (pipeline env st req).trace.sent.head? =
        some { req with auth := some t }) ∧
    (st.accessToken = none → req.auth = none →
      ∃ r, (pipeline env st req).trace.sent.head? = some r ∧
        r.auth = none) := by
  have h2 : pipeline env st req = pipelineAux (1 + 1) env st req := rfl
  constructor
  · intro t ht
    rw [h2, pipelineAux_sent_head 1 env st req]
    simp [requestInterceptor, hga, ht]
  · intro ht hauth
    refine ⟨req, ?_, hauth⟩
    rw [h2, pipelineAux_sent_head 1 env st req]
    simp [requestInterceptor, hga, ht]

/-- Witness for C5 at concrete inputs: with stored access token `A1` the
first send carries `Bearer A1`; with an empty store the request goes out
with no Authorization header. -/
theorem c5_witness :
    (pipeline envOk ⟨some "A1", some "R1"⟩ ⟨"/venues", none, false⟩).trace.sent.head? =
      some ⟨"/venues", some "A1", false⟩ ∧
    ∃ r, (pipeline envOk ⟨none, none⟩ ⟨"/venues", none, false⟩).trace.sent.head? =
      some r ∧ r.auth = none := by
  exact ⟨(c5_bearer_attachment envOk ⟨some "A1", some "R1"⟩
      ⟨"/venues", none, false⟩ rfl).1 "A1" rfl,
    (c5_bearer_attachment envOk ⟨none, none⟩
      ⟨"/venues", none, false⟩ rfl).2 rfl rfl⟩

/-- C7 counterexample: `AuthProvider.login` writes the two tokens one
after the other with no cleanup on failure (README-AUTH.md lines
227-239); starting from an empty store, if the first write succeeds and
the second throws, login completes by error with the store holding ONLY
the access token — the pair is partially present, refuting the claimed
atomicity. -/
theorem c7_counterexample :
    (AuthProvider.login false true ⟨none, none⟩ ⟨false, none, none⟩
        ⟨"A1", "R1"⟩).1 = ⟨some "A1", none⟩ ∧
    (AuthProvider.login false true ⟨none, none⟩ ⟨false, none, none⟩
        ⟨"A1", "R1"⟩).2.2 = .error ⟨"setItemAsync refreshToken failed"⟩ ∧
    ¬ pairConsistent (AuthProvider.login false true ⟨none, none⟩
        ⟨false, none, none⟩ ⟨"A1", "R1"⟩).1 := by
  exact ⟨rfl, rfl, by decide⟩

/-- C7 amended: the store never becomes partially present through the
pipeline — every pipeline run, however its effects fail, takes a
both-or-neither store to a both-or-neither store (its failure path
deletes both slots) — and logout always clears both; login also preserves
the shape **provided its refresh-token write succeeds**.  (Unamendable
part, shown false by the counterexample: a login whose second write
throws ends partially present.) -/
theorem c7_pair_atomicity (env : Env) (st : Store) (req : Request)
    (sess : SessionState) (tokens : TokenPair) (saF : Bool)
    (hc : pairConsistent st) :
    pairConsistent (pipeline env st req).store ∧
    pairConsistent (AuthProvider.login saF false st sess tokens).1 ∧
    pairConsistent (AuthProvider.logout st sess).1 := by
  refine ⟨pipelineAux_pairConsistent 2 env st req hc, ?_, rfl⟩
  cases saF
  · simp [AuthProvider.login, pairConsistent]
  · simpa [AuthProvider.login]

/-- Witness for the amended C7 at concrete inputs. -/
theorem c7_witness :
    pairConsistent
      (pipeline envOk ⟨some "A1", some "R1"⟩ ⟨"/me", none, false⟩).store ∧
    pairConsistent
      (AuthProvider.login false false ⟨some "A1", some "R1"⟩
        ⟨true, some "A1", some "R1"⟩ ⟨"A2", "R2"⟩).1 ∧
    pairConsistent
      (AuthProvider.logout ⟨some "A1", some "R1"⟩
        ⟨true, some "A1", some "R1"⟩).1 :=
  c7_pair_atomicity envOk ⟨some "A1", some "R1"⟩ ⟨"/me", none, false⟩
    ⟨true, some "A1", some "R1"⟩ ⟨"A2", "R2"⟩ false rfl

/-- C8: `authService.login` posts email and password as the two multipart
form fields of a POST to `/auth/login` and returns the endpoint's
`{accessToken, refreshToken}` response body, while the pipeline's refresh
step posts the JSON body `{refreshToken}` to the absolute
`/auth/refresh` url. -/
theorem c8_login_and_refresh_shapes
    (post : PostRequest → Except ApiError (AxiosResponse TokenPair))
    (email password : String) (env : Env) (st : Store) (req : Request)
    (rt : Token) (e : ApiError)
    (hretry : req.retry = false)
    (hsend : env.server (requestInterceptor env st req) = .error e)
    (h401 : e.status = some 401)
    (hgr : env.getRefreshFails = false)
    (hrt : st.refreshToken = some rt) :
    authService.login post email password =
      Except.map (fun r => r.data)
        (post ⟨"/auth/login", "multipart/form-data",
               [("email", email), ("password", password)]⟩) ∧
    (pipeline env st req).trace.refreshed = [⟨refreshUrl, ⟨rt⟩⟩] := by
  constructor
  · cases hp : post ⟨"/auth/login", "multipart/form-data",
        [("email", email), ("password", password)]⟩ with
    | ok r => simp [authService.login, FormData.append, hp, Except.map]
    | error er => simp [authService.login, FormData.append, hp, Except.map]
  · exact pipeline_refreshed_eq env st req rt e hretry hsend h401 hgr hrt

/-- Witness for C8 at concrete inputs: the login call returns the
endpoint's pair and a 401 run posts exactly `{refreshToken: R1}` to the
refresh url. -/
theorem c8_witness :
    authService.login loginPost "ada@example.com" "secret" =
      .ok ⟨"A1", "R1"⟩ ∧
    (pipeline envStill401 ⟨some "A1", some "R1"⟩
        ⟨"/me", none, false⟩).trace.refreshed =
      [⟨refreshUrl, ⟨"R1"⟩⟩] := by
  have h := c8_login_and_refresh_shapes loginPost "ada@example.com" "secret"
    envStill401 ⟨some "A1", some "R1"⟩ ⟨"/me", none, false⟩ "R1"
    ⟨some 401, "unauthorized"⟩ rfl rfl rfl rfl rfl
  exact ⟨h.1.trans (by decide), h.2⟩

/-- C9: if reading the access token from the credential store throws, the
request interceptor swallows the error (api.ts lines 21-23) and the
request is still handed to the server unchanged — in particular with no
Authorization header added — rather than the call failing before send. -/
theorem c9_get_failure_swallowed (env : Env) (st : Store) (req : Request)
    (hga : env.getAccessFails = true) :
    (pipeline env st req).trace.sent.head? = some req := by
  have h2 : pipeline env st req = pipelineAux (1 + 1) env st req := rfl
  rw [h2, pipelineAux_sent_head 1 env st req]
  simp [requestInterceptor, hga]

/-- Witness for C9 at a concrete input: the store holds a token but the
read throws; the request is still sent, without an Authorization
header. -/
theorem c9_witness :
    envGetFail.getAccessFails = true ∧
    (pipeline envGetFail ⟨some "A1", some "R1"⟩
        ⟨"/me", none, false⟩).trace.sent.head? =
      some ⟨"/me", none, false⟩ :=
  ⟨rfl, c9_get_failure_swallowed envGetFail ⟨some "A1", some "R1"⟩
    ⟨"/me", none, false⟩ rfl⟩

end Footbook
